import Mathlib

/-!
# Verification of the mapkit color-ramp and KML-assembly core

Shallow embedding of `mapkit/ColorRampGenerator.py` and the pure
assembly/aggregation logic of `mapkit/RasterConverter.py`.

Python floats are modelled as rationals (`ℚ`), Python ints as `ℤ`.
Fallible code returns `Except PyErr`; the external raster store (SQL
queries, PNG rendering) is out of scope per the spec and appears only
through the record streams and statistics rows fed to the functions.
-/

/-- Python runtime errors raised by the modelled code paths. -/
inductive PyErr where
  /-- `raise ValueError(...)` -/
  | valueError : PyErr
  /-- division by zero, e.g. `x / float(0)` -/
  | zeroDivisionError : PyErr
  /-- out-of-range list indexing, e.g. `[][-1]` -/
  | indexError : PyErr
  /-- reference to an unbound local variable -/
  | nameError : PyErr
  /-- bare `raise` with no active exception (RuntimeError) -/
  | runtimeError : PyErr
deriving DecidableEq, Repr

/-- Python `math.trunc` / `int(...)` on a real number: truncation toward
zero. -/
def mathTrunc (q : ℚ) : ℤ := if 0 ≤ q then ⌊q⌋ else ⌈q⌉

/-- Python 3 `round(...)` to an integer: round half to even. -/
def pyRound (q : ℚ) : ℤ :=
  if q - ⌊q⌋ < 1/2 then ⌊q⌋
  else if 1/2 < q - ⌊q⌋ then ⌊q⌋ + 1
  else if Even ⌊q⌋ then ⌊q⌋ else ⌊q⌋ + 1

/-- Python list indexing `l[i]`: negative indices count from the end;
`none` models `IndexError`. -/
def pyGet {α : Type} (l : List α) (i : ℤ) : Option α :=
  if 0 ≤ i then l.get? i.toNat
  else if 0 ≤ i + l.length then l.get? (i + l.length).toNat
  else none

/-- An RGB triple as stored in the Python color ramp lists. -/
abbrev Color := ℤ × ℤ × ℤ

/-! ## ColorRampGenerator.py — `MappedColorRamp` -/

/-- `MappedColorRamp.__init__` fields (`ColorRampGenerator.py` lines
34-40).  The derived `vrgbaList` string rendering is not modelled; all
claims concern the numeric fields and lookup methods. -/
structure MappedColorRamp where
  colorRamp : List Color
  slope : ℚ
  intercept : ℚ
  min : ℚ
  max : ℚ
  alpha : ℚ
deriving DecidableEq, Repr

/-- `MappedColorRamp.getColorForIndex` (line 64): plain Python list
indexing into `colorRamp`. -/
def MappedColorRamp.getColorForIndex (m : MappedColorRamp) (i : ℤ) : Option Color :=
  pyGet m.colorRamp i

/-- `MappedColorRamp.getIndexForValue` (line 90):
`math.trunc(self.slope * float(value) + self.intercept)`. -/
def MappedColorRamp.getIndexForValue (m : MappedColorRamp) (v : ℚ) : ℤ :=
  mathTrunc (m.slope * v + m.intercept)

/-- `MappedColorRamp.getColorForValue` (lines 71-88): in-range values go
through the linear map, values above `max` use index `-1` (Python: last
element), values below `min` use index `0`. -/
def MappedColorRamp.getColorForValue (m : MappedColorRamp) (v : ℚ) : Option Color :=
  if m.min ≤ v ∧ v ≤ m.max then m.getColorForIndex (m.getIndexForValue v)
  else if m.max < v then m.getColorForIndex (-1)
  else m.getColorForIndex 0

/-- `MappedColorRamp.getAlphaAsInteger` (line 98):
`int(self.alpha * self.MAX_HEX_DECIMAL)` with `MAX_HEX_DECIMAL = 255`. -/
def MappedColorRamp.getAlphaAsInteger (m : MappedColorRamp) : ℤ :=
  mathTrunc (m.alpha * 255)

/-! ## ColorRampGenerator.py — `ColorRampGenerator` -/

/-- `ColorRampEnum.COLOR_RAMP_HUE` -/
def COLOR_RAMP_HUE : ℤ := 0
/-- `ColorRampEnum.COLOR_RAMP_TERRAIN` -/
def COLOR_RAMP_TERRAIN : ℤ := 1
/-- `ColorRampEnum.COLOR_RAMP_AQUA` -/
def COLOR_RAMP_AQUA : ℤ := 2

/-- The `hue` literal of `generateDefaultColorRamp` (lines 202-208). -/
def hueRamp : List Color :=
  [(255, 0, 255), (231, 0, 255), (208, 0, 255), (185, 0, 255), (162, 0, 255), (139, 0, 255),
   (115, 0, 255), (92, 0, 255), (69, 0, 255), (46, 0, 255), (23, 0, 255), (0, 0, 255),
   (0, 23, 255), (0, 46, 255), (0, 69, 255), (0, 92, 255), (0, 115, 255), (0, 139, 255),
   (0, 162, 255), (0, 185, 255), (0, 208, 255), (0, 231, 255), (0, 255, 255), (0, 255, 231),
   (0, 255, 208), (0, 255, 185), (0, 255, 162), (0, 255, 139), (0, 255, 115), (0, 255, 92),
   (0, 255, 69), (0, 255, 46), (0, 255, 23), (0, 255, 0), (23, 255, 0), (46, 255, 0),
   (69, 255, 0), (92, 255, 0), (115, 255, 0), (139, 255, 0), (162, 255, 0), (185, 255, 0),
   (208, 255, 0), (231, 255, 0), (255, 255, 0), (255, 243, 0), (255, 231, 0), (255, 220, 0),
   (255, 208, 0), (255, 197, 0), (255, 185, 0), (255, 174, 0), (255, 162, 0), (255, 151, 0),
   (255, 139, 0), (255, 128, 0), (255, 116, 0), (255, 104, 0), (255, 93, 0), (255, 81, 0),
   (255, 69, 0), (255, 58, 0), (255, 46, 0), (255, 34, 0), (255, 23, 0), (255, 11, 0),
   (255, 0, 0)]

/-- The `terrain` literal of `generateDefaultColorRamp` (lines 210-214). -/
def terrainRamp : List Color :=
  [(0, 100, 0), (19, 107, 0), (38, 114, 0), (57, 121, 0), (76, 129, 0), (95, 136, 0),
   (114, 143, 0), (133, 150, 0), (152, 158, 0), (171, 165, 0), (190, 172, 0), (210, 180, 0),
   (210, 167, 5), (210, 155, 10), (210, 142, 15), (210, 130, 20), (210, 117, 25), (210, 105, 30),
   (188, 94, 25), (166, 83, 21), (145, 72, 17), (123, 61, 13), (101, 50, 9), (80, 40, 5),
   (95, 59, 27), (111, 79, 50), (127, 98, 73), (143, 118, 95), (159, 137, 118), (175, 157, 141),
   (191, 176, 164), (207, 196, 186), (223, 215, 209), (239, 235, 232), (255, 255, 255)]

/-- The `aqua` literal of `generateDefaultColorRamp` (lines 216-218). -/
def aquaRamp : List Color :=
  [(150, 255, 255), (136, 240, 250), (122, 226, 245), (109, 212, 240), (95, 198, 235),
   (81, 184, 230), (68, 170, 225), (54, 156, 220), (40, 142, 215), (27, 128, 210),
   (13, 114, 205), (0, 100, 200), (0, 94, 195), (0, 89, 191), (0, 83, 187), (0, 78, 182),
   (0, 72, 178), (0, 67, 174), (0, 61, 170), (0, 56, 165), (0, 50, 161), (0, 45, 157),
   (0, 40, 153), (0, 36, 143), (0, 32, 134), (0, 29, 125), (0, 25, 115), (0, 21, 106),
   (0, 18, 97), (0, 14, 88), (0, 10, 78), (0, 7, 69), (0, 3, 60), (0, 0, 51)]

/-- `ColorRampGenerator.generateDefaultColorRamp` (lines 196-228): the
`if/elif` chain returns one of the three literals; an unrecognized enum
value falls off the end of the function, so Python returns `None`
(modelled as `none`). -/
def generateDefaultColorRamp (colorRampEnum : ℤ) : Option (List Color) :=
  if colorRampEnum = COLOR_RAMP_HUE then some hueRamp
  else if colorRampEnum = COLOR_RAMP_TERRAIN then some terrainRamp
  else if colorRampEnum = COLOR_RAMP_AQUA then some aquaRamp
  else none

/-- One iteration of the outer loop of `generateCustomColorRamp`
(lines 245-265): append `bottomColor`, compute the three channel slopes
(`x / float(interpolatedPoints)`, a `ZeroDivisionError` when the divisor
is zero), then append each interpolated color of `range(1,
interpolatedPoints)` that is not already in the accumulated ramp. -/
def interpSegment (acc : List Color) (bottomColor topColor : Color)
    (interpolatedPoints : ℤ) : Except PyErr (List Color) :=
  let acc := acc ++ [bottomColor]
  if interpolatedPoints = 0 then .error .zeroDivisionError
  else
    let rSlope : ℚ := (topColor.1 - bottomColor.1) / interpolatedPoints
    let gSlope : ℚ := (topColor.2.1 - bottomColor.2.1) / interpolatedPoints
    let bSlope : ℚ := (topColor.2.2 - bottomColor.2.2) / interpolatedPoints
    let points := (List.range (interpolatedPoints - 1).toNat).map (fun k => ((k : ℤ) + 1 : ℤ))
    .ok (points.foldl
      (fun ramp point =>
        let color : Color := (mathTrunc (rSlope * point + bottomColor.1),
                              mathTrunc (gSlope * point + bottomColor.2.1),
                              mathTrunc (bSlope * point + bottomColor.2.2))
        if color ∈ ramp then ramp else ramp ++ [color])
      acc)

/-- `ColorRampGenerator.generateCustomColorRamp` (lines 230-270).  The
outer loop runs over adjacent anchor pairs; the final
`colorRamp.append(colors[-1])` raises `IndexError` on an empty anchor
list.  (The `isinstance(colors, list)` guard with its bare `raise` is
outside the typed model: the argument type is already a list.) -/
def generateCustomColorRamp (colors : List Color) (interpolatedPoints : ℤ) :
    Except PyErr (List Color) := do
  let colorRamp ← (colors.zip colors.tail).foldlM
    (fun acc pair => interpSegment acc pair.1 pair.2 interpolatedPoints) []
  match colors.getLast? with
  | none => .error .indexError
  | some last => .ok (colorRamp ++ [last])

/-- `ColorRampGenerator.mapColorRampToValues` (lines 272-305): derive the
linear value-to-index map `rampIndex = slope * value + intercept` sending
`minValue` to index `0` and `maxValue` to index `len(colorRamp) - 1`. -/
def mapColorRampToValues (colorRamp : List Color) (minValue maxValue : ℚ)
    (alpha : ℚ) : MappedColorRamp :=
  let minRampIndex : ℚ := 0
  let maxRampIndex : ℚ := ((colorRamp.length : ℤ) - 1 : ℤ)
  if minValue ≠ maxValue then
    let slope := (maxRampIndex - minRampIndex) / (maxValue - minValue)
    { colorRamp := colorRamp, slope := slope,
      intercept := maxRampIndex - slope * maxValue,
      min := minValue, max := maxValue, alpha := alpha }
  else
    { colorRamp := colorRamp, slope := 0, intercept := minRampIndex,
      min := minValue, max := maxValue, alpha := alpha }

/-! ## RasterConverter.py — KML grid/cluster assembly

The SQL queries and XML serialization are external I/O; what is modelled
is the pure assembly loop over the value-ordered record stream: Python
truthiness filtering of `row.val`, the unique-value list, the
group-opening test against `groupValue` (initialized to `-9999999.0`),
and the polygon append into the most recently created `multigeometry`
(an unbound local, hence a `NameError`, if no placemark was ever
created). -/

/-- One row of the `ST_PixelAsPolygons` query consumed by
`getAsKmlGrid` (lines 95-104): `x`, `y`, `val` (None for no-data), and
the pre-rendered KML polygon string. -/
structure GridRecord where
  x : ℤ
  y : ℤ
  val : Option ℚ
  polygon : String
deriving DecidableEq, Repr

/-- One row of the `ST_DumpAsPolygons` query consumed by
`getAsKmlClusters` (lines 227-234). -/
structure ClusterRecord where
  val : Option ℚ
  polygon : String
deriving DecidableEq, Repr

/-- `if row.val: value = float(row.val) else: value = None` followed by
`if value:` — Python float truthiness maps both an absent value and the
value `0.0` to a skipped record. -/
def truthyValue (val : Option ℚ) : Option ℚ :=
  match val with
  | none => none
  | some v => if v = 0 then none else some v

/-- A `<Placemark>` opened for a group of equal-valued records: its
value (also its name/style source) and the polygon strings appended to
its `<MultiGeometry>`. -/
structure PlacemarkGroup where
  value : ℚ
  geoms : List String
deriving DecidableEq, Repr

/-- Mutable loop state of the grid/cluster assembly loops: the
placemarks appended to the document so far (the last one carries the
currently bound `multigeometry`), the `groupValue` local, and the
`uniqueValues` list. -/
structure KmlState where
  groups : List PlacemarkGroup
  groupValue : ℚ
  uniqueValues : List ℚ
deriving DecidableEq, Repr

/-- State before the loop (lines 91-92): no placemark yet,
`groupValue = -9999999.0`, `uniqueValues = []`. -/
def initKmlState : KmlState :=
  { groups := [], groupValue := -9999999, uniqueValues := [] }

/-- Append a polygon string to the geometry list of the last opened
placemark (the one the Python `multigeometry` local is bound to). -/
def appendToLastGroup : List PlacemarkGroup → String → List PlacemarkGroup
  | [], _ => []
  | [g], p => [{ g with geoms := g.geoms ++ [p] }]
  | g :: g2 :: rest, p => g :: appendToLastGroup (g2 :: rest) p

/-- Loop body of `getAsKmlGrid` (lines 95-170) for one record: skip
non-truthy values; record the value in `uniqueValues`; open a new
placemark when the value differs from `groupValue` (updating
`groupValue`); then append the polygon to the bound `multigeometry` —
a `NameError` if no placemark was ever opened. -/
def gridStep (s : KmlState) (r : GridRecord) : Except PyErr KmlState :=
  match truthyValue r.val with
  | none => .ok s
  | some value =>
    let uv := if value ∈ s.uniqueValues then s.uniqueValues
              else s.uniqueValues ++ [value]
    if value ≠ s.groupValue then
      .ok { groups := s.groups ++ [{ value := value, geoms := [r.polygon] }],
            groupValue := value, uniqueValues := uv }
    else
      match s.groups with
      | [] => .error .nameError
      | _ => .ok { s with groups := appendToLastGroup s.groups r.polygon,
                          uniqueValues := uv }

/-- Loop body of `getAsKmlClusters` (lines 227-292): identical grouping
logic, on records without pixel coordinates. -/
def clusterStep (s : KmlState) (r : ClusterRecord) : Except PyErr KmlState :=
  match truthyValue r.val with
  | none => .ok s
  | some value =>
    let uv := if value ∈ s.uniqueValues then s.uniqueValues
              else s.uniqueValues ++ [value]
    if value ≠ s.groupValue then
      .ok { groups := s.groups ++ [{ value := value, geoms := [r.polygon] }],
            groupValue := value, uniqueValues := uv }
    else
      match s.groups with
      | [] => .error .nameError
      | _ => .ok { s with groups := appendToLastGroup s.groups r.polygon,
                          uniqueValues := uv }

/-- `RasterConverter.getAsKmlGrid` (lines 50-180): the alpha guard at
entry (lines 56-58) followed by the assembly loop over the record
stream.  Color-ramp styling and XML serialization of the resulting
state are rendering details over the same group sequence. -/
def getAsKmlGrid (alpha : ℚ) (records : List GridRecord) : Except PyErr KmlState :=
  if ¬(0 ≤ alpha ∧ alpha ≤ 1) then .error .valueError
  else records.foldlM gridStep initKmlState

/-- `RasterConverter.getAsKmlClusters` (lines 182-302): alpha guard
(lines 189-190) and the cluster assembly loop. -/
def getAsKmlClusters (alpha : ℚ) (records : List ClusterRecord) : Except PyErr KmlState :=
  if ¬(0 ≤ alpha ∧ alpha ≤ 1) then .error .valueError
  else records.foldlM clusterStep initKmlState

/-- `RasterConverter.getAsKmlPng` (lines 304-445): performs no
validation of `alpha` — it maps the color ramp over the resolved value
range and hands the resulting colorizer ramp to the external PNG
renderer, wrapping the image in a GroundOverlay document.  The external
store interactions are out of scope; the returned `MappedColorRamp`
carries all styling the produced KML/PNG output depends on. -/
def getAsKmlPng (alpha : ℚ) (colorRamp : List Color) (minValue maxValue : ℚ) :
    Except PyErr MappedColorRamp :=
  .ok (mapColorRampToValues colorRamp minValue maxValue alpha)

/-- One entry of the `timeStampedRasters` argument of the animation
methods: `rasterId` and `dateTime` dictionary keys, `none` when the key
is missing (timestamps abstracted to integers). -/
structure TimeStampedRaster where
  rasterId : Option ℤ
  dateTime : Option ℤ
deriving DecidableEq, Repr

/-- The validation loop shared by both animation methods (lines 479-486
and 710-717): raise `ValueError` on a missing `rasterId` or `dateTime`
key, else collect the raster ids. -/
def validateTimeStamped (timeStampedRasters : List TimeStampedRaster) :
    Except PyErr (List ℤ) :=
  timeStampedRasters.foldlM
    (fun acc t =>
      match t.rasterId with
      | none => .error .valueError
      | some rid =>
        match t.dateTime with
        | none => .error .valueError
        | some _ => .ok (acc ++ [rid]))
    []

/-- `ColorRampGenerator.isNumber` / `RasterConverter.isNumber`
(lines 307-317 / 1109-1119): `str(value)` and `float(value)` succeed for
every value that is already a number, so on the numeric arguments the
model admits this is constantly `true`. -/
def isNumber (_ : ℚ) : Bool := true

/-- `RasterConverter.getAsKmlGridAnimation` (lines 449-662) up to the
external store boundary: alpha guard (lines 473-475), per-raster
dictionary validation, then `timeStampedRasters[0]['dateTime']`
(line 508, an `IndexError` on an empty list).  The per-frame assembly
repeats the grid loop; the value returned here is the validated raster
id list driving it. -/
def getAsKmlGridAnimation (alpha : ℚ)
    (timeStampedRasters : List TimeStampedRaster) : Except PyErr (List ℤ) :=
  if ¬(0 ≤ alpha ∧ alpha ≤ 1) then .error .valueError
  else do
    let rasterIds ← validateTimeStamped timeStampedRasters
    match timeStampedRasters with
    | [] => .error .indexError
    | _ => .ok rasterIds

/-- `RasterConverter.getAsKmlPngAnimation` (lines 666-) up to the
external store boundary: `isNumber` guards on `noDataValue` and
`drawOrder` (lines 697-701), the alpha guard (lines 703-704), raster
dictionary validation, then `rasterIds[0]` (line 759, an `IndexError`
on an empty list). -/
def getAsKmlPngAnimation (noDataValue drawOrder alpha : ℚ)
    (timeStampedRasters : List TimeStampedRaster) : Except PyErr (List ℤ) :=
  if ¬(isNumber noDataValue) then .error .valueError
  else if ¬(isNumber drawOrder) then .error .valueError
  else if ¬(0 ≤ alpha ∧ alpha ≤ 1) then .error .valueError
  else do
    let rasterIds ← validateTimeStamped timeStampedRasters
    match rasterIds with
    | [] => .error .indexError
    | _ => .ok rasterIds

/-! ## RasterConverter.py — `getMinMaxOfRasters` -/

/-- One row of the `ST_SummaryStats` query (lines 1043-1051): the
per-raster band statistics, `min`/`max` possibly NULL. -/
structure StatsRow where
  min : Option ℚ
  max : Option ℚ
deriving DecidableEq, Repr

/-- Python `min(...)` over a list: `none` models the `ValueError` raised
on an empty sequence. -/
def pyMin (xs : List ℚ) : Option ℚ :=
  match xs with
  | [] => none
  | x :: rest => some (rest.foldl Min.min x)

/-- Python `max(...)` over a list: `none` models the `ValueError` raised
on an empty sequence. -/
def pyMax (xs : List ℚ) : Option ℚ :=
  match xs with
  | [] => none
  | x :: rest => some (rest.foldl Max.max x)

/-- `RasterConverter.getMinMaxOfRasters` (lines 1031-1071), aggregation
part: collect the non-NULL minimums and maximums row by row, then take
`min(minValues)` with the `ValueError` fallback `0` and `max(maxValues)`
with the fallback `1`. -/
def getMinMaxOfRasters (rows : List StatsRow) : ℚ × ℚ :=
  let minValues := rows.foldl
    (fun acc r => match r.min with | some v => acc ++ [v] | none => acc) []
  let maxValues := rows.foldl
    (fun acc r => match r.max with | some v => acc ++ [v] | none => acc) []
  ((pyMin minValues).getD 0, (pyMax maxValues).getD 1)

/-- The two-anchor red/blue ramp used as a concrete test ramp. -/
def rampRB : List Color := [(255, 0, 0), (0, 0, 255)]

deriving instance DecidableEq for Except

/-! ## Claim C3 — custom ramp at two interpolated points -/

/-- C3 counterexample: interpolating the two anchors `(255,0,0)` and
`(0,0,255)` with `interpolatedPoints = 2` does NOT return the
two-element anchor list — the truncated midpoint survives. -/
theorem customRamp_two_points_counterexample :
    generateCustomColorRamp ([(255, 0, 0), (0, 0, 255)] : List Color) 2 ≠
      .ok [(255, 0, 0), (0, 0, 255)] := by
  with_unfolding_all decide

/-- C3 (amended): on anchors `[(255,0,0),(0,0,255)]` with
`interpolatedPoints = 2` the custom ramp is the three-element list
`[(255,0,0),(127,0,127),(0,0,255)]`: the single interpolated point per
segment is the channel-wise truncated midpoint, and it is not a
duplicate, so it survives. -/
theorem customRamp_two_points_midpoint :
    generateCustomColorRamp ([(255, 0, 0), (0, 0, 255)] : List Color) 2 =
      .ok [(255, 0, 0), (127, 0, 127), (0, 0, 255)] := by
  with_unfolding_all decide

/-! ## Claim C4 — custom ramp error behavior -/

/-- C4 counterexample: `interpolatedPoints = -1 ≤ 0` does not raise any
error at all — the inner interpolation range is empty and the call
succeeds, returning just the anchors. -/
theorem customRamp_negative_points_counterexample :
    generateCustomColorRamp ([(255, 0, 0), (0, 0, 255)] : List Color) (-1) =
      .ok [(255, 0, 0), (0, 0, 255)] := by
  with_unfolding_all decide

/-- C4 (amended): `generateCustomColorRamp` raises no
`InvalidInputError`-style typed error: an empty anchor list fails with
`IndexError` (at `colors[-1]`), `interpolatedPoints = 0` with at least
two anchors fails with `ZeroDivisionError` (at the slope division), and
a negative `interpolatedPoints` succeeds. -/
theorem customRamp_error_behavior :
    (∀ n : ℤ, generateCustomColorRamp [] n = .error .indexError)
    ∧ (∀ (c0 c1 : Color) (rest : List Color),
        generateCustomColorRamp (c0 :: c1 :: rest) 0 = .error .zeroDivisionError)
    ∧ generateCustomColorRamp ([(255, 0, 0), (0, 0, 255)] : List Color) (-1) =
        .ok [(255, 0, 0), (0, 0, 255)] := by
  refine ⟨fun n => rfl, fun c0 c1 rest => rfl, by with_unfolding_all decide⟩

/-! ## Claim C5 — built-in ramps -/

/-- C5 counterexample: the `terrain` ramp has 35 entries, not 67-70, and
an unrecognized enum value returns `None` rather than raising a typed
error. -/
theorem defaultRamp_counterexample :
    (generateDefaultColorRamp 1).map List.length = some 35
    ∧ ¬(67 ≤ 35 ∧ 35 ≤ 70)
    ∧ generateDefaultColorRamp 99 = none := by
  refine ⟨by decide, by decide, by decide⟩

/-- C5 (amended): the three recognized identifiers return the fixed
hand-authored ramps of 67 (`hue`), 35 (`terrain`) and 34 (`aqua`)
entries; every other identifier falls off the `if/elif` chain and
returns `None` — no error is raised. -/
theorem defaultRamp_behavior :
    (generateDefaultColorRamp COLOR_RAMP_HUE = some hueRamp ∧ hueRamp.length = 67)
    ∧ (generateDefaultColorRamp COLOR_RAMP_TERRAIN = some terrainRamp
        ∧ terrainRamp.length = 35)
    ∧ (generateDefaultColorRamp COLOR_RAMP_AQUA = some aquaRamp
        ∧ aquaRamp.length = 34)
    ∧ ∀ e : ℤ, e ≠ COLOR_RAMP_HUE → e ≠ COLOR_RAMP_TERRAIN → e ≠ COLOR_RAMP_AQUA →
        generateDefaultColorRamp e = none := by
  refine ⟨⟨by decide, by decide⟩, ⟨by decide, by decide⟩, ⟨by decide, by decide⟩,
    fun e h0 h1 h2 => ?_⟩
  simp [generateDefaultColorRamp, h0, h1, h2]

/-- C5 witness: the amended behavior at the concrete unrecognized
identifier `5`. -/
theorem defaultRamp_behavior_witness :
    (5 : ℤ) ≠ COLOR_RAMP_HUE ∧ (5 : ℤ) ≠ COLOR_RAMP_TERRAIN
    ∧ (5 : ℤ) ≠ COLOR_RAMP_AQUA ∧ generateDefaultColorRamp 5 = none :=
  ⟨by decide, by decide, by decide,
    defaultRamp_behavior.2.2.2 5 (by decide) (by decide) (by decide)⟩

/-! ## Claim C6 — alpha channel accessor -/

/-- C6 counterexample: at `alpha = 1/2` the accessor returns
`int(127.5) = 127`, while rounding to nearest would give `128`. -/
theorem alphaInteger_counterexample :
    (mapColorRampToValues hueRamp 0 1 (1/2)).getAlphaAsInteger = 127
    ∧ pyRound ((1/2 : ℚ) * 255) = 128
    ∧ (127 : ℤ) ≠ 128 := by
  refine ⟨by with_unfolding_all decide, by with_unfolding_all decide, by decide⟩

/-- C6 (amended): for alpha in `[0,1]` the accessor returns
`int(alpha * 255)` — truncation toward zero, not rounding to nearest —
which is an integer in `[0,255]`. -/
theorem alphaInteger_truncation (colorRamp : List Color) (minV maxV alpha : ℚ)
    (h0 : 0 ≤ alpha) (h1 : alpha ≤ 1) :
    (mapColorRampToValues colorRamp minV maxV alpha).getAlphaAsInteger
        = mathTrunc (alpha * 255)
    ∧ 0 ≤ (mapColorRampToValues colorRamp minV maxV alpha).getAlphaAsInteger
    ∧ (mapColorRampToValues colorRamp minV maxV alpha).getAlphaAsInteger ≤ 255 := by
  have halpha : (mapColorRampToValues colorRamp minV maxV alpha).alpha = alpha := by
    unfold mapColorRampToValues
    split <;> rfl
  have hmul0 : (0 : ℚ) ≤ alpha * 255 := by positivity
  have hmul1 : alpha * 255 ≤ 255 := by nlinarith
  have htr : mathTrunc (alpha * 255) = ⌊alpha * 255⌋ := if_pos hmul0
  refine ⟨by rw [MappedColorRamp.getAlphaAsInteger, halpha], ?_, ?_⟩
  · rw [MappedColorRamp.getAlphaAsInteger, halpha, htr]
    exact Int.floor_nonneg.mpr hmul0
  · rw [MappedColorRamp.getAlphaAsInteger, halpha, htr]
    calc ⌊alpha * 255⌋ ≤ ⌊(255 : ℚ)⌋ := Int.floor_le_floor hmul1
    _ = 255 := by norm_num

/-- C6 witness: the amended statement at `alpha = 1/2` over the hue
ramp mapped to `[0,1]`. -/
theorem alphaInteger_truncation_witness :
    (0 : ℚ) ≤ 1/2 ∧ (1/2 : ℚ) ≤ 1
    ∧ (mapColorRampToValues hueRamp 0 1 (1/2)).getAlphaAsInteger
        = mathTrunc ((1/2 : ℚ) * 255) :=
  ⟨by norm_num, by norm_num,
    (alphaInteger_truncation hueRamp 0 1 (1/2) (by norm_num) (by norm_num)).1⟩

/-! ## Claim C7 — range resolution -/

lemma foldl_min_le_init (xs : List ℚ) (a : ℚ) : xs.foldl Min.min a ≤ a := by
  induction xs generalizing a with
  | nil => exact le_refl a
  | cons y ys ih => exact le_trans (ih (Min.min a y)) (min_le_left a y)

lemma foldl_min_le_mem (xs : List ℚ) (a : ℚ) :
    ∀ x ∈ xs, xs.foldl Min.min a ≤ x := by
  induction xs generalizing a with
  | nil => intro x hx; cases hx
  | cons y ys ih =>
    intro x hx
    rcases List.mem_cons.mp hx with rfl | hx
    · exact le_trans (foldl_min_le_init ys (Min.min a x)) (min_le_right a x)
    · exact ih (Min.min a y) x hx

lemma foldl_min_mem (xs : List ℚ) (a : ℚ) :
    xs.foldl Min.min a = a ∨ xs.foldl Min.min a ∈ xs := by
  induction xs generalizing a with
  | nil => exact Or.inl rfl
  | cons y ys ih =>
    rcases ih (Min.min a y) with h | h
    · rcases min_choice a y with hm | hm
      · exact Or.inl (by rw [List.foldl_cons, h, hm])
      · exact Or.inr (by rw [List.foldl_cons, h, hm]; exact List.mem_cons_self y ys)
    · exact Or.inr (List.mem_cons_of_mem y h)

lemma foldl_max_ge_init (xs : List ℚ) (a : ℚ) : a ≤ xs.foldl Max.max a := by
  induction xs generalizing a with
  | nil => exact le_refl a
  | cons y ys ih => exact le_trans (le_max_left a y) (ih (Max.max a y))

lemma foldl_max_ge_mem (xs : List ℚ) (a : ℚ) :
    ∀ x ∈ xs, x ≤ xs.foldl Max.max a := by
  induction xs generalizing a with
  | nil => intro x hx; cases hx
  | cons y ys ih =>
    intro x hx
    rcases List.mem_cons.mp hx with rfl | hx
    · exact le_trans (le_max_right a x) (foldl_max_ge_init ys (Max.max a x))
    · exact ih (Max.max a y) x hx

lemma foldl_max_mem (xs : List ℚ) (a : ℚ) :
    xs.foldl Max.max a = a ∨ xs.foldl Max.max a ∈ xs := by
  induction xs generalizing a with
  | nil => exact Or.inl rfl
  | cons y ys ih =>
    rcases ih (Max.max a y) with h | h
    · rcases max_choice a y with hm | hm
      · exact Or.inl (by rw [List.foldl_cons, h, hm])
      · exact Or.inr (by rw [List.foldl_cons, h, hm]; exact List.mem_cons_self y ys)
    · exact Or.inr (List.mem_cons_of_mem y h)

lemma pyMin_eq_none_iff (xs : List ℚ) : pyMin xs = none ↔ xs = [] := by
  cases xs <;> simp [pyMin]

lemma pyMax_eq_none_iff (xs : List ℚ) : pyMax xs = none ↔ xs = [] := by
  cases xs <;> simp [pyMax]

lemma pyMin_mem (xs : List ℚ) (m : ℚ) (h : pyMin xs = some m) : m ∈ xs := by
  cases xs with
  | nil => cases h
  | cons x rest =>
    have hm : rest.foldl Min.min x = m := by
      simpa [pyMin] using h
    rcases foldl_min_mem rest x with h' | h'
    · rw [← hm, h']
      exact List.mem_cons_self x rest
    · rw [← hm]
      exact List.mem_cons_of_mem x h'

lemma pyMin_le (xs : List ℚ) (m : ℚ) (h : pyMin xs = some m) :
    ∀ x ∈ xs, m ≤ x := by
  cases xs with
  | nil => cases h
  | cons x rest =>
    have hm : rest.foldl Min.min x = m := by
      simpa [pyMin] using h
    intro y hy
    rcases List.mem_cons.mp hy with rfl | hy
    · exact hm ▸ foldl_min_le_init rest y
    · exact hm ▸ foldl_min_le_mem rest x y hy

lemma pyMax_mem (xs : List ℚ) (m : ℚ) (h : pyMax xs = some m) : m ∈ xs := by
  cases xs with
  | nil => cases h
  | cons x rest =>
    have hm : rest.foldl Max.max x = m := by
      simpa [pyMax] using h
    rcases foldl_max_mem rest x with h' | h'
    · rw [← hm, h']
      exact List.mem_cons_self x rest
    · rw [← hm]
      exact List.mem_cons_of_mem x h'

lemma pyMax_ge (xs : List ℚ) (m : ℚ) (h : pyMax xs = some m) :
    ∀ x ∈ xs, x ≤ m := by
  cases xs with
  | nil => cases h
  | cons x rest =>
    have hm : rest.foldl Max.max x = m := by
      simpa [pyMax] using h
    intro y hy
    rcases List.mem_cons.mp hy with rfl | hy
    · exact hm ▸ foldl_max_ge_init rest y
    · exact hm ▸ foldl_max_ge_mem rest x y hy

lemma collect_eq_filterMap (f : StatsRow → Option ℚ) :
    ∀ (rows : List StatsRow) (acc : List ℚ),
      rows.foldl (fun acc r => match f r with | some v => acc ++ [v] | none => acc) acc
        = acc ++ rows.filterMap f := by
  intro rows
  induction rows with
  | nil => intro acc; simp
  | cons r rest ih =>
    intro acc
    cases h : f r with
    | none => simp [h, ih]
    | some v => simp [h, ih]

lemma getMinMaxOfRasters_fst (rows : List StatsRow) :
    (getMinMaxOfRasters rows).1 = (pyMin (rows.filterMap StatsRow.min)).getD 0 := by
  unfold getMinMaxOfRasters
  rw [collect_eq_filterMap StatsRow.min rows []]
  rfl

lemma getMinMaxOfRasters_snd (rows : List StatsRow) :
    (getMinMaxOfRasters rows).2 = (pyMax (rows.filterMap StatsRow.max)).getD 1 := by
  unfold getMinMaxOfRasters
  rw [collect_eq_filterMap StatsRow.max rows []]
  rfl

/-- C7: range resolution returns the minimum of all present per-raster
minimums (default `0` when none are present) and the maximum of all
present maximums (default `1`); in particular the empty collection
yields `(0, 1)` rather than an error. -/
theorem minMax_resolution (rows : List StatsRow) :
    ((rows.filterMap StatsRow.min = [] → (getMinMaxOfRasters rows).1 = 0)
      ∧ (rows.filterMap StatsRow.min ≠ [] →
          (getMinMaxOfRasters rows).1 ∈ rows.filterMap StatsRow.min)
      ∧ (∀ x ∈ rows.filterMap StatsRow.min, (getMinMaxOfRasters rows).1 ≤ x))
    ∧ ((rows.filterMap StatsRow.max = [] → (getMinMaxOfRasters rows).2 = 1)
      ∧ (rows.filterMap StatsRow.max ≠ [] →
          (getMinMaxOfRasters rows).2 ∈ rows.filterMap StatsRow.max)
      ∧ (∀ x ∈ rows.filterMap StatsRow.max, x ≤ (getMinMaxOfRasters rows).2))
    ∧ getMinMaxOfRasters [] = (0, 1) := by
  refine ⟨⟨?_, ?_, ?_⟩, ⟨?_, ?_, ?_⟩, rfl⟩
  · intro h
    rw [getMinMaxOfRasters_fst, h]
    rfl
  · intro h
    rw [getMinMaxOfRasters_fst]
    cases hp : pyMin (rows.filterMap StatsRow.min) with
    | none => exact absurd ((pyMin_eq_none_iff _).mp hp) h
    | some m => exact pyMin_mem _ m hp
  · intro x hx
    rw [getMinMaxOfRasters_fst]
    cases hp : pyMin (rows.filterMap StatsRow.min) with
    | none =>
      have he := (pyMin_eq_none_iff _).mp hp
      rw [he] at hx
      cases hx
    | some m => exact pyMin_le _ m hp x hx
  · intro h
    rw [getMinMaxOfRasters_snd, h]
    rfl
  · intro h
    rw [getMinMaxOfRasters_snd]
    cases hp : pyMax (rows.filterMap StatsRow.max) with
    | none => exact absurd ((pyMax_eq_none_iff _).mp hp) h
    | some m => exact pyMax_mem _ m hp
  · intro x hx
    rw [getMinMaxOfRasters_snd]
    cases hp : pyMax (rows.filterMap StatsRow.max) with
    | none =>
      have he := (pyMax_eq_none_iff _).mp hp
      rw [he] at hx
      cases hx
    | some m => exact pyMax_ge _ m hp x hx

/-- C7 witness: range resolution over the concrete statistics rows
`[(min 3, max 5), (NULL, NULL), (min 1, max 9)]` and the empty
collection. -/
theorem minMax_resolution_witness :
    ([⟨some 3, some 5⟩, ⟨none, none⟩, ⟨some 1, some 9⟩] : List StatsRow).filterMap
        StatsRow.min ≠ []
    ∧ (getMinMaxOfRasters [⟨some 3, some 5⟩, ⟨none, none⟩, ⟨some 1, some 9⟩]).1 ∈
        ([⟨some 3, some 5⟩, ⟨none, none⟩, ⟨some 1, some 9⟩] : List StatsRow).filterMap
          StatsRow.min
    ∧ getMinMaxOfRasters [] = (0, 1) :=
  ⟨by with_unfolding_all decide,
    (minMax_resolution [⟨some 3, some 5⟩, ⟨none, none⟩, ⟨some 1, some 9⟩]).1.2.1
      (by with_unfolding_all decide),
    (minMax_resolution []).2.2⟩

/-! ## Grid/cluster assembly lemmas (claims C2, C9, C10) -/

lemma except_bind_ok {ε α β : Type} (a : α) (k : α → Except ε β) :
    (Except.ok a >>= k) = k a := rfl

lemma except_bind_error {ε α β : Type} (e : ε) (k : α → Except ε β) :
    ((Except.error e : Except ε α) >>= k) = Except.error e := rfl

lemma appendToLastGroup_length (p : String) :
    ∀ gs : List PlacemarkGroup, (appendToLastGroup gs p).length = gs.length
  | [] => rfl
  | [_] => rfl
  | g :: g2 :: rest => by
    simp only [appendToLastGroup, List.length_cons]
    rw [appendToLastGroup_length p (g2 :: rest)]
    simp

lemma truthyValue_ne_zero (o : Option ℚ) (v : ℚ) (h : truthyValue o = some v) :
    v ≠ 0 := by
  cases o with
  | none => cases h
  | some x =>
    by_cases hx : x = 0
    · simp [truthyValue, hx] at h
    · simp [truthyValue, hx] at h
      rw [← h]
      exact hx

lemma gridStep_nodata (s : KmlState) (r : GridRecord)
    (h : truthyValue r.val = none) : gridStep s r = .ok s := by
  simp [gridStep, h]

lemma clusterStep_nodata (s : KmlState) (r : ClusterRecord)
    (h : truthyValue r.val = none) : clusterStep s r = .ok s := by
  simp [clusterStep, h]

/-- C2: a new placemark group is opened exactly when a data-bearing
record's value differs from the open group's value (and the new group is
bound to that value); on the concrete value sequence `[1, 1, 2, 1]` the
grid assembler produces exactly 3 groups — the trailing `1` opens a
fresh group instead of rejoining the first. -/
theorem grid_grouping_adjacency :
    (∀ (s : KmlState) (r : GridRecord) (v : ℚ) (s' : KmlState),
       truthyValue r.val = some v → gridStep s r = .ok s' →
       (v ≠ s.groupValue →
          s'.groups.length = s.groups.length + 1 ∧ s'.groupValue = v)
       ∧ (v = s.groupValue → s'.groups.length = s.groups.length))
    ∧ (getAsKmlGrid 1 [⟨0, 0, some 1, "p1"⟩, ⟨0, 1, some 1, "p2"⟩,
          ⟨1, 0, some 2, "p3"⟩, ⟨1, 1, some 1, "p4"⟩]).map
        (fun s => s.groups.length) = .ok 3 := by
  constructor
  · intro s r v s' ht hstep
    constructor
    · intro hv
      simp only [gridStep, ht, if_pos hv] at hstep
      cases hstep
      simp
    · intro hv
      subst hv
      simp only [gridStep, ht] at hstep
      rw [if_neg (by simp)] at hstep
      cases hg : s.groups with
      | nil =>
        rw [hg] at hstep
        cases hstep
      | cons g gs =>
        rw [hg] at hstep
        cases hstep
        simp [appendToLastGroup_length, hg]
  · with_unfolding_all decide

/-- C2 witness: the step characterization at the concrete first record
of value `1` against the freshly initialized state. -/
theorem grid_grouping_adjacency_witness :
    truthyValue (some (1 : ℚ)) = some 1
    ∧ gridStep initKmlState ⟨0, 0, some 1, "p"⟩ =
        .ok ⟨[⟨1, ["p"]⟩], 1, [1]⟩
    ∧ (1 : ℚ) ≠ initKmlState.groupValue
    ∧ (⟨[⟨1, ["p"]⟩], 1, [1]⟩ : KmlState).groups.length =
          initKmlState.groups.length + 1
    ∧ (⟨[⟨1, ["p"]⟩], 1, [1]⟩ : KmlState).groupValue = 1 := by
  have ht : truthyValue ((⟨0, 0, some 1, "p"⟩ : GridRecord).val) = some 1 := by
    norm_num [truthyValue]
  have hs : gridStep initKmlState ⟨0, 0, some 1, "p"⟩ =
      .ok ⟨[⟨1, ["p"]⟩], 1, [1]⟩ := by
    with_unfolding_all decide
  have hne : (1 : ℚ) ≠ initKmlState.groupValue := by
    norm_num [initKmlState]
  have h := (grid_grouping_adjacency.1 initKmlState ⟨0, 0, some 1, "p"⟩ 1
    ⟨[⟨1, ["p"]⟩], 1, [1]⟩ ht hs).1 hne
  exact ⟨ht, hs, hne, h.1, h.2⟩

/-! ## Claim C9 — falsy values are no-data -/

lemma gridStep_ok_no_zero (s : KmlState) (r : GridRecord) (s' : KmlState)
    (hstep : gridStep s r = .ok s') (h0 : (0 : ℚ) ∉ s.uniqueValues) :
    (0 : ℚ) ∉ s'.uniqueValues := by
  cases ht : truthyValue r.val with
  | none =>
    rw [gridStep_nodata s r ht] at hstep
    cases hstep
    exact h0
  | some v =>
    have hv : v ≠ 0 := truthyValue_ne_zero r.val v ht
    have huv : (0 : ℚ) ∉ (if v ∈ s.uniqueValues then s.uniqueValues
        else s.uniqueValues ++ [v]) := by
      by_cases hmem : v ∈ s.uniqueValues
      · simpa [hmem] using h0
      · simp only [hmem, if_false]
        intro hc
        rcases List.mem_append.mp hc with hc | hc
        · exact h0 hc
        · exact hv (List.mem_singleton.mp hc).symm
    simp only [gridStep, ht] at hstep
    by_cases hne : v ≠ s.groupValue
    · rw [if_pos hne] at hstep
      cases hstep
      exact huv
    · rw [if_neg hne] at hstep
      cases hg : s.groups with
      | nil =>
        rw [hg] at hstep
        cases hstep
      | cons g gs =>
        rw [hg] at hstep
        cases hstep
        exact huv

lemma clusterStep_ok_no_zero (s : KmlState) (r : ClusterRecord) (s' : KmlState)
    (hstep : clusterStep s r = .ok s') (h0 : (0 : ℚ) ∉ s.uniqueValues) :
    (0 : ℚ) ∉ s'.uniqueValues := by
  cases ht : truthyValue r.val with
  | none =>
    rw [clusterStep_nodata s r ht] at hstep
    cases hstep
    exact h0
  | some v =>
    have hv : v ≠ 0 := truthyValue_ne_zero r.val v ht
    have huv : (0 : ℚ) ∉ (if v ∈ s.uniqueValues then s.uniqueValues
        else s.uniqueValues ++ [v]) := by
      by_cases hmem : v ∈ s.uniqueValues
      · simpa [hmem] using h0
      · simp only [hmem, if_false]
        intro hc
        rcases List.mem_append.mp hc with hc | hc
        · exact h0 hc
        · exact hv (List.mem_singleton.mp hc).symm
    simp only [clusterStep, ht] at hstep
    by_cases hne : v ≠ s.groupValue
    · rw [if_pos hne] at hstep
      cases hstep
      exact huv
    · rw [if_neg hne] at hstep
      cases hg : s.groups with
      | nil =>
        rw [hg] at hstep
        cases hstep
      | cons g gs =>
        rw [hg] at hstep
        cases hstep
        exact huv

lemma foldlM_gridStep_no_zero :
    ∀ (recs : List GridRecord) (s : KmlState), (0 : ℚ) ∉ s.uniqueValues →
      ∀ s', List.foldlM gridStep s recs = .ok s' → (0 : ℚ) ∉ s'.uniqueValues := by
  intro recs
  induction recs with
  | nil =>
    intro s h0 s' hfold
    cases hfold
    exact h0
  | cons r rest ih =>
    intro s h0 s' hfold
    rw [List.foldlM_cons] at hfold
    cases hstep : gridStep s r with
    | error e =>
      rw [hstep, except_bind_error] at hfold
      cases hfold
    | ok s1 =>
      rw [hstep, except_bind_ok] at hfold
      exact ih s1 (gridStep_ok_no_zero s r s1 hstep h0) s' hfold

lemma foldlM_clusterStep_no_zero :
    ∀ (recs : List ClusterRecord) (s : KmlState), (0 : ℚ) ∉ s.uniqueValues →
      ∀ s', List.foldlM clusterStep s recs = .ok s' → (0 : ℚ) ∉ s'.uniqueValues := by
  intro recs
  induction recs with
  | nil =>
    intro s h0 s' hfold
    cases hfold
    exact h0
  | cons r rest ih =>
    intro s h0 s' hfold
    rw [List.foldlM_cons] at hfold
    cases hstep : clusterStep s r with
    | error e =>
      rw [hstep, except_bind_error] at hfold
      cases hfold
    | ok s1 =>
      rw [hstep, except_bind_ok] at hfold
      exact ih s1 (clusterStep_ok_no_zero s r s1 hstep h0) s' hfold

/-- C9: in both the grid and the cluster assembler, a record carrying
the value `0` is processed exactly like a value-absent no-data record —
the loop state is left untouched (no group opened, no geometry, no
unique value) — and consequently `0` never occurs in the unique-value
list of any successfully assembled document. -/
theorem zero_value_is_nodata :
    (∀ (s : KmlState) (r : GridRecord), r.val = some 0 → gridStep s r = .ok s)
    ∧ (∀ (s : KmlState) (r : GridRecord), r.val = none → gridStep s r = .ok s)
    ∧ (∀ (s : KmlState) (r : ClusterRecord), r.val = some 0 → clusterStep s r = .ok s)
    ∧ (∀ (s : KmlState) (r : ClusterRecord), r.val = none → clusterStep s r = .ok s)
    ∧ (∀ (alpha : ℚ) (recs : List GridRecord) (s' : KmlState),
         getAsKmlGrid alpha recs = .ok s' → (0 : ℚ) ∉ s'.uniqueValues)
    ∧ (∀ (alpha : ℚ) (recs : List ClusterRecord) (s' : KmlState),
         getAsKmlClusters alpha recs = .ok s' → (0 : ℚ) ∉ s'.uniqueValues) := by
  refine ⟨?_, ?_, ?_, ?_, ?_, ?_⟩
  · intro s r h
    exact gridStep_nodata s r (by simp [truthyValue, h])
  · intro s r h
    exact gridStep_nodata s r (by simp [truthyValue, h])
  · intro s r h
    exact clusterStep_nodata s r (by simp [truthyValue, h])
  · intro s r h
    exact clusterStep_nodata s r (by simp [truthyValue, h])
  · intro alpha recs s' h
    unfold getAsKmlGrid at h
    by_cases ha : ¬(0 ≤ alpha ∧ alpha ≤ 1)
    · rw [if_pos ha] at h
      cases h
    · rw [if_neg ha] at h
      exact foldlM_gridStep_no_zero recs initKmlState (by simp [initKmlState]) s' h
  · intro alpha recs s' h
    unfold getAsKmlClusters at h
    by_cases ha : ¬(0 ≤ alpha ∧ alpha ≤ 1)
    · rw [if_pos ha] at h
      cases h
    · rw [if_neg ha] at h
      exact foldlM_clusterStep_no_zero recs initKmlState (by simp [initKmlState]) s' h

/-- C9 witness: a concrete value-`0` record leaves the initial state
untouched in both assemblers, and a one-record value-`0` stream yields a
document whose unique-value list does not contain `0`. -/
theorem zero_value_is_nodata_witness :
    gridStep initKmlState ⟨0, 0, some 0, "p"⟩ = .ok initKmlState
    ∧ clusterStep initKmlState ⟨some 0, "p"⟩ = .ok initKmlState
    ∧ gridStep initKmlState ⟨0, 0, none, "p"⟩ = .ok initKmlState
    ∧ (0 : ℚ) ∉ initKmlState.uniqueValues := by
  have h1 := zero_value_is_nodata.1 initKmlState ⟨0, 0, some 0, "p"⟩ rfl
  have h2 := zero_value_is_nodata.2.2.1 initKmlState ⟨some 0, "p"⟩ rfl
  have h3 := zero_value_is_nodata.2.1 initKmlState ⟨0, 0, none, "p"⟩ rfl
  have h4 := zero_value_is_nodata.2.2.2.2.1 1 [⟨0, 0, some 0, "p"⟩] initKmlState
    (by rw [getAsKmlGrid, if_neg (by norm_num), List.foldlM_cons, h1,
      except_bind_ok, List.foldlM_nil]; rfl)
  exact ⟨h1, h2, h3, h4⟩

/-! ## Claim C10 — sentinel-valued first record -/

lemma gridStep_sentinel (s : KmlState) (r : GridRecord)
    (h : truthyValue r.val = some s.groupValue) (hg : s.groups = []) :
    gridStep s r = .error .nameError := by
  simp only [gridStep, h]
  rw [if_neg (by simp), hg]

lemma foldlM_gridStep_skip (l : List GridRecord) :
    ∀ (pre : List GridRecord) (s : KmlState),
      (∀ p ∈ pre, truthyValue p.val = none) →
      List.foldlM gridStep s (pre ++ l) = List.foldlM gridStep s l := by
  intro pre
  induction pre with
  | nil => intro s _; rfl
  | cons p ps ih =>
    intro s hpre
    rw [List.cons_append, List.foldlM_cons,
      gridStep_nodata s p (hpre p (List.mem_cons_self p ps)), except_bind_ok]
    exact ih s (fun q hq => hpre q (List.mem_cons_of_mem p hq))

/-- C10: grid assembly is not total — when the first data-bearing record
of the stream carries exactly the group-sentinel value `-9999999.0`, the
value-change test fails on it, no placemark is opened, and the polygon
append hits the unbound `multigeometry` local, so the call aborts with a
`NameError` instead of producing a document. -/
theorem sentinel_first_record_nameError (alpha : ℚ) (pre : List GridRecord)
    (r : GridRecord) (rest : List GridRecord)
    (h0 : 0 ≤ alpha) (h1 : alpha ≤ 1)
    (hpre : ∀ p ∈ pre, truthyValue p.val = none)
    (hr : truthyValue r.val = some (-9999999)) :
    getAsKmlGrid alpha (pre ++ r :: rest) = .error .nameError := by
  rw [getAsKmlGrid, if_neg (by simp [h0, h1]), foldlM_gridStep_skip _ pre _ hpre,
    List.foldlM_cons, gridStep_sentinel initKmlState r hr rfl, except_bind_error]

/-- C10 witness: the concrete one-record stream whose single record
carries the sentinel value `-9999999.0` aborts with a `NameError`. -/
theorem sentinel_first_record_nameError_witness :
    truthyValue (some (-9999999 : ℚ)) = some (-9999999)
    ∧ getAsKmlGrid 1 [⟨0, 0, some (-9999999), "p"⟩] = .error .nameError := by
  have ht : truthyValue (some (-9999999 : ℚ)) = some (-9999999) := by
    norm_num [truthyValue]
  exact ⟨ht, sentinel_first_record_nameError 1 [] ⟨0, 0, some (-9999999), "p"⟩ []
    (by norm_num) (by norm_num) (by simp) ht⟩

/-! ## Claim C8 — alpha validation at the entry points -/

/-- C8 counterexample: `getAsKmlPng` accepts `alpha = 1.5` — no error is
raised, the document is assembled, and its color ramp carries the
out-of-range alpha byte `int(1.5 * 255) = 382`. -/
theorem alpha_validation_counterexample :
    getAsKmlPng (3/2) hueRamp 0 1 = .ok (mapColorRampToValues hueRamp 0 1 (3/2))
    ∧ (mapColorRampToValues hueRamp 0 1 (3/2)).getAlphaAsInteger = 382 := by
  exact ⟨rfl, by with_unfolding_all decide⟩

/-- C8 (amended): the grid, cluster, and both animation entry points
reject an alpha outside `[0,1]` eagerly with a `ValueError` before any
part of the document is built; `getAsKmlPng` alone performs no alpha
validation and unconditionally builds its output from the mapped color
ramp. -/
theorem alpha_validation_behavior :
    (∀ (alpha : ℚ) (recs : List GridRecord), ¬(0 ≤ alpha ∧ alpha ≤ 1) →
       getAsKmlGrid alpha recs = .error .valueError)
    ∧ (∀ (alpha : ℚ) (recs : List ClusterRecord), ¬(0 ≤ alpha ∧ alpha ≤ 1) →
       getAsKmlClusters alpha recs = .error .valueError)
    ∧ (∀ (alpha : ℚ) (ts : List TimeStampedRaster), ¬(0 ≤ alpha ∧ alpha ≤ 1) →
       getAsKmlGridAnimation alpha ts = .error .valueError)
    ∧ (∀ (noDataValue drawOrder alpha : ℚ) (ts : List TimeStampedRaster),
       ¬(0 ≤ alpha ∧ alpha ≤ 1) →
       getAsKmlPngAnimation noDataValue drawOrder alpha ts = .error .valueError)
    ∧ (∀ (alpha : ℚ) (colorRamp : List Color) (minV maxV : ℚ),
       getAsKmlPng alpha colorRamp minV maxV =
         .ok (mapColorRampToValues colorRamp minV maxV alpha)) := by
  refine ⟨?_, ?_, ?_, ?_, fun alpha colorRamp minV maxV => rfl⟩
  · intro alpha recs h
    rw [getAsKmlGrid, if_pos h]
  · intro alpha recs h
    rw [getAsKmlClusters, if_pos h]
  · intro alpha ts h
    rw [getAsKmlGridAnimation, if_pos h]
  · intro noDataValue drawOrder alpha ts h
    rw [getAsKmlPngAnimation, if_neg (by simp [isNumber]),
      if_neg (by simp [isNumber]), if_pos h]

/-- C8 witness: the amended behavior at the concrete out-of-range alpha
`3/2`. -/
theorem alpha_validation_behavior_witness :
    ¬(0 ≤ (3/2 : ℚ) ∧ (3/2 : ℚ) ≤ 1)
    ∧ getAsKmlGrid (3/2) [] = .error .valueError
    ∧ getAsKmlClusters (3/2) [] = .error .valueError
    ∧ getAsKmlGridAnimation (3/2) [] = .error .valueError
    ∧ getAsKmlPngAnimation 0 0 (3/2) [] = .error .valueError
    ∧ getAsKmlPng (3/2) hueRamp 0 1 =
        .ok (mapColorRampToValues hueRamp 0 1 (3/2)) := by
  have h : ¬(0 ≤ (3/2 : ℚ) ∧ (3/2 : ℚ) ≤ 1) := by norm_num
  exact ⟨h, alpha_validation_behavior.1 (3/2) [] h,
    alpha_validation_behavior.2.1 (3/2) [] h,
    alpha_validation_behavior.2.2.1 (3/2) [] h,
    alpha_validation_behavior.2.2.2.1 0 0 (3/2) [] h,
    alpha_validation_behavior.2.2.2.2 (3/2) hueRamp 0 1⟩

/-! ## Claim C1 — clamped color lookup -/

lemma get?_zero_head {α : Type} (l : List α) (h : l ≠ []) :
    l.get? 0 = some (l.head h) := by
  cases l with
  | nil => exact absurd rfl h
  | cons a t => rfl

lemma get?_last {α : Type} (l : List α) (h : l ≠ []) :
    l.get? (l.length - 1) = some (l.getLast h) := by
  have hpos : 0 < l.length := List.length_pos.mpr h
  rw [List.getLast_eq_get]
  exact List.get?_eq_get (by omega)

lemma mapColorRampToValues_fields (colorRamp : List Color) (minV maxV alpha : ℚ)
    (hne : minV ≠ maxV) :
    mapColorRampToValues colorRamp minV maxV alpha =
      { colorRamp := colorRamp,
        slope := ((((colorRamp.length : ℤ) - 1 : ℤ) : ℚ)) / (maxV - minV),
        intercept := (((colorRamp.length : ℤ) - 1 : ℤ) : ℚ)
          - (((colorRamp.length : ℤ) - 1 : ℤ) : ℚ) / (maxV - minV) * maxV,
        min := minV, max := maxV, alpha := alpha } := by
  simp only [mapColorRampToValues, sub_zero]
  rw [if_pos hne]

/-- C1: a `MappedColorRamp` built by `mapColorRampToValues` over a
non-empty ramp with `min < max` performs a clamped lookup: an in-range
value `v` returns `colorRamp[trunc(slope*v + intercept)]` (a valid
index), a value above `max` returns the last ramp color, a value below
`min` returns the first, and in particular `min` maps to the first and
`max` to the last ramp color. -/
theorem getColorForValue_clamped_lookup (colorRamp : List Color)
    (minV maxV alpha v : ℚ) (hne : colorRamp ≠ []) (hlt : minV < maxV) :
    (minV ≤ v → v ≤ maxV →
       (mapColorRampToValues colorRamp minV maxV alpha).getColorForValue v
          = colorRamp.get?
              ((mapColorRampToValues colorRamp minV maxV alpha).getIndexForValue v).toNat
       ∧ ((mapColorRampToValues colorRamp minV maxV alpha).getIndexForValue v).toNat
            < colorRamp.length)
    ∧ (maxV < v →
       (mapColorRampToValues colorRamp minV maxV alpha).getColorForValue v
          = some (colorRamp.getLast hne))
    ∧ (v < minV →
       (mapColorRampToValues colorRamp minV maxV alpha).getColorForValue v
          = some (colorRamp.head hne))
    ∧ (mapColorRampToValues colorRamp minV maxV alpha).getColorForValue minV
        = some (colorRamp.head hne)
    ∧ (mapColorRampToValues colorRamp minV maxV alpha).getColorForValue maxV
        = some (colorRamp.getLast hne) := by
  have hneq : minV ≠ maxV := ne_of_lt hlt
  have hd : maxV - minV ≠ 0 := sub_ne_zero_of_ne (ne_of_gt hlt)
  have hdpos : 0 < maxV - minV := by linarith
  have hL : 0 < colorRamp.length := List.length_pos.mpr hne
  rw [mapColorRampToValues_fields colorRamp minV maxV alpha hneq]
  set L := colorRamp.length with hLdef
  set C : ℚ := (((L : ℤ) - 1 : ℤ) : ℚ) with hCdef
  have hC0 : (0 : ℚ) ≤ C := by
    rw [hCdef]
    exact_mod_cast (by omega : (0 : ℤ) ≤ (L : ℤ) - 1)
  have hkey : ∀ w : ℚ, C / (maxV - minV) * w + (C - C / (maxV - minV) * maxV)
      = C * (w - minV) / (maxV - minV) - (C * (maxV - minV) / (maxV - minV) - C) := by
    intro w
    field_simp
    ring
  have hcancel : C * (maxV - minV) / (maxV - minV) = C :=
    mul_div_cancel_right₀ C hd
  have hkey' : ∀ w : ℚ, C / (maxV - minV) * w + (C - C / (maxV - minV) * maxV)
      = C * (w - minV) / (maxV - minV) := by
    intro w
    rw [hkey w, hcancel]
    ring
  -- the linear index expression, in closed form
  simp only [MappedColorRamp.getColorForValue, MappedColorRamp.getColorForIndex,
    MappedColorRamp.getIndexForValue]
  refine ⟨?_, ?_, ?_, ?_, ?_⟩
  · -- in range
    intro hv1 hv2
    have hx0 : (0 : ℚ) ≤ C / (maxV - minV) * v + (C - C / (maxV - minV) * maxV) := by
      rw [hkey' v]
      exact div_nonneg (mul_nonneg hC0 (by linarith)) (le_of_lt hdpos)
    have hxle : C / (maxV - minV) * v + (C - C / (maxV - minV) * maxV) ≤ C := by
      rw [hkey' v, div_le_iff₀ hdpos]
      exact mul_le_mul_of_nonneg_left (by linarith) hC0
    have htr : mathTrunc (C / (maxV - minV) * v + (C - C / (maxV - minV) * maxV))
        = ⌊C / (maxV - minV) * v + (C - C / (maxV - minV) * maxV)⌋ := if_pos hx0
    have hfl0 : 0 ≤ ⌊C / (maxV - minV) * v + (C - C / (maxV - minV) * maxV)⌋ :=
      Int.floor_nonneg.mpr hx0
    have hflle : ⌊C / (maxV - minV) * v + (C - C / (maxV - minV) * maxV)⌋ ≤ (L : ℤ) - 1 := by
      have h1 := Int.floor_le_floor hxle
      rwa [hCdef, Int.floor_intCast] at h1
    constructor
    · rw [if_pos ⟨hv1, hv2⟩, pyGet, if_pos (htr ▸ hfl0)]
    · rw [htr]
      omega
  · -- above max
    intro hv
    rw [if_neg (by intro hc; linarith [hc.2]), if_pos hv, pyGet,
      if_neg (by norm_num), if_pos (by omega),
      (by omega : ((-1 : ℤ) + (L : ℤ)).toNat = L - 1)]
    exact get?_last colorRamp hne
  · -- below min
    intro hv
    rw [if_neg (by intro hc; linarith [hc.1]), if_neg (by intro hc; linarith),
      pyGet, if_pos (le_refl 0), Int.toNat_zero]
    exact get?_zero_head colorRamp hne
  · -- at min
    have hx : C / (maxV - minV) * minV + (C - C / (maxV - minV) * maxV) = 0 := by
      rw [hkey' minV]
      simp
    rw [if_pos ⟨le_refl minV, le_of_lt hlt⟩, hx,
      (by rw [mathTrunc, if_pos (le_refl (0 : ℚ))]; exact Int.floor_zero :
        mathTrunc (0 : ℚ) = 0),
      pyGet, if_pos (le_refl 0), Int.toNat_zero]
    exact get?_zero_head colorRamp hne
  · -- at max
    have hx : C / (maxV - minV) * maxV + (C - C / (maxV - minV) * maxV) = C := by
      ring
    rw [if_pos ⟨le_of_lt hlt, le_refl maxV⟩, hx,
      (by rw [mathTrunc, if_pos hC0, hCdef, Int.floor_intCast] :
        mathTrunc C = (L : ℤ) - 1),
      pyGet, if_pos (by omega : (0 : ℤ) ≤ (L : ℤ) - 1),
      (by omega : ((L : ℤ) - 1).toNat = L - 1)]
    exact get?_last colorRamp hne

lemma rampRB_ne : rampRB ≠ [] := by decide

/-- C1 witness: the clamped lookup on the concrete two-color ramp
mapped to `[0,1]`, evaluated in range at `1/2`, above range at `2`,
below range at `-1`, and at both extremes. -/
theorem getColorForValue_clamped_lookup_witness :
    ((0 : ℚ) ≤ 1/2 ∧ (1/2 : ℚ) ≤ 1)
    ∧ (mapColorRampToValues rampRB 0 1 1).getColorForValue (1/2)
        = rampRB.get?
            ((mapColorRampToValues rampRB 0 1 1).getIndexForValue (1/2)).toNat
    ∧ ((mapColorRampToValues rampRB 0 1 1).getIndexForValue (1/2)).toNat
        < rampRB.length
    ∧ (mapColorRampToValues rampRB 0 1 1).getColorForValue 2
        = some (rampRB.getLast rampRB_ne)
    ∧ (mapColorRampToValues rampRB 0 1 1).getColorForValue (-1)
        = some (rampRB.head rampRB_ne)
    ∧ (mapColorRampToValues rampRB 0 1 1).getColorForValue 0
        = some (rampRB.head rampRB_ne)
    ∧ (mapColorRampToValues rampRB 0 1 1).getColorForValue 1
        = some (rampRB.getLast rampRB_ne) := by
  have h12 := getColorForValue_clamped_lookup rampRB 0 1 1 (1/2) rampRB_ne
    (by norm_num)
  have h2 := getColorForValue_clamped_lookup rampRB 0 1 1 2 rampRB_ne
    (by norm_num)
  have hm1 := getColorForValue_clamped_lookup rampRB 0 1 1 (-1) rampRB_ne
    (by norm_num)
  exact ⟨⟨by norm_num, by norm_num⟩, (h12.1 (by norm_num) (by norm_num)).1,
    (h12.1 (by norm_num) (by norm_num)).2, h2.2.1 (by norm_num),
    hm1.2.2.1 (by norm_num), h12.2.2.2.1, h12.2.2.2.2⟩
